import Mathlib

/-!
Shallow embedding of `src/python_matlab_bridge.py` (class `DroneSimulationBridge`
and its helpers): the per-drone state merge (`_update_drone_state`), the bounded
ingestion queue (`queue.Queue(maxsize=1000)` and its blocking `put`), the drain
loop (`_process_data_queue`), the mission registry (`send_mission_to_drone` and
the `mission_waypoints` dict), the MATLAB command dispatcher
(`_execute_matlab_command`), the main processing loop (`_main_loop`), and the
snapshot query (`get_drone_states`).  Python floats are modelled as rationals;
the wall clock `time.time()` is an explicit parameter threaded to every
operation that reads it.
-/

/-- `DroneState` dataclass (source lines 58 to 69): per-drone record whose
vector fields default to `np.zeros(3)`, battery voltage 0.0, flight mode
"UNKNOWN", disarmed, GPS fix 0. -/
@[ext]
structure DroneState where
  drone_id : String
  timestamp : ℚ
  position : List ℚ
  velocity : List ℚ
  attitude : List ℚ
  battery_voltage : ℚ
  flight_mode : String
  armed : Bool
  gps_fix : Int
deriving DecidableEq, Repr

/-- The `DroneState(drone_id=drone_id, timestamp=time.time())` constructed on
first update for an unseen id (source line 652): every other field at its
dataclass default. -/
def freshState (id : String) (now : ℚ) : DroneState :=
  { drone_id := id, timestamp := now, position := [0, 0, 0], velocity := [0, 0, 0],
    attitude := [0, 0, 0], battery_voltage := 0, flight_mode := "UNKNOWN",
    armed := false, gps_fix := 0 }

/-- The `state_data` dict consumed by `_update_drone_state` (source lines 647
to 672): a `drone_id` plus one `Option` per mergeable field, `none` modelling a
key absent from the dict. -/
structure StateData where
  drone_id : String
  position : Option (List ℚ) := none
  velocity : Option (List ℚ) := none
  attitude : Option (List ℚ) := none
  battery_voltage : Option ℚ := none
  flight_mode : Option String := none
  armed : Option Bool := none
  gps_fix : Option Int := none
deriving DecidableEq, Repr

/-- Field-wise body of `_update_drone_state` (source lines 655 to 672) acting
on one already-looked-up `DroneState`: `state.timestamp = time.time()`, then
each of position, velocity, attitude and the four scalar keys is overwritten
exactly when the key is present in `state_data`. -/
def updateDroneState (now : ℚ) (sd : StateData) (s : DroneState) : DroneState :=
  { s with
    timestamp := now
    position := sd.position.getD s.position
    velocity := sd.velocity.getD s.velocity
    attitude := sd.attitude.getD s.attitude
    battery_voltage := sd.battery_voltage.getD s.battery_voltage
    flight_mode := sd.flight_mode.getD s.flight_mode
    armed := sd.armed.getD s.armed
    gps_fix := sd.gps_fix.getD s.gps_fix }

/-- The `self.drone_states` dict, value-semantics view: id to stored state. -/
abbrev Store := String → Option DroneState

def emptyStore : Store := fun _ => none

/-- `_update_drone_state` on the whole `drone_states` dict (source lines 647
to 654): upsert — a missing id is first bound to a fresh default state, then
the field-wise merge is applied to the entry for that id. -/
def applyStoreUpdate (now : ℚ) (sd : StateData) (m : Store) : Store :=
  let s0 := (m sd.drone_id).getD (freshState sd.drone_id now)
  fun k => if k = sd.drone_id then some (updateDroneState now sd s0) else m k

/-- A sequence of `(arrival time, state_data)` updates applied in arrival
order, as the drain loop does one `data_item` at a time. -/
def applyAllStore (us : List (ℚ × StateData)) (m : Store) : Store :=
  us.foldl (fun m p => applyStoreUpdate p.1 p.2 m) m

/-- Same sequence applied to a single drone's record. -/
def applyList (us : List (ℚ × StateData)) (s : DroneState) : DroneState :=
  us.foldl (fun s p => updateDroneState p.1 p.2 s) s

/-- Spec-side helper (from the spec's words, for the refinement claim): the
value of one field under last-write-wins — the last update that names the
field provides the value, otherwise the previous value `d` stands. -/
def lwwField {α : Type} (os : List (Option α)) (d : α) : α :=
  (os.reverse.findSome? id).getD d

/-- The subsequence of updates addressed to drone `a`, in arrival order. -/
def updatesFor (a : String) (us : List (ℚ × StateData)) : List (ℚ × StateData) :=
  us.filter (fun p => p.2.drone_id == a)

/-- Modelled from the spec's words (refinement target for the merge claim):
the field-wise last-write-wins merge of the updates addressed to `a`, in
arrival order, over a fresh agent — each field named in some update takes the
last such update's value, unnamed fields stay at their defaults, and
`timestamp` is the arrival time of the last update for `a`; no updates for
`a` means no state for `a`. -/
def lwwSpec (a : String) (us : List (ℚ × StateData)) : Option DroneState :=
  let usa := updatesFor a us
  if usa.isEmpty then none
  else some
    { drone_id := a
      timestamp := lwwField (usa.map fun p => some p.1) 0
      position := lwwField (usa.map fun p => p.2.position) [0, 0, 0]
      velocity := lwwField (usa.map fun p => p.2.velocity) [0, 0, 0]
      attitude := lwwField (usa.map fun p => p.2.attitude) [0, 0, 0]
      battery_voltage := lwwField (usa.map fun p => p.2.battery_voltage) 0
      flight_mode := lwwField (usa.map fun p => p.2.flight_mode) "UNKNOWN"
      armed := lwwField (usa.map fun p => p.2.armed) false
      gps_fix := lwwField (usa.map fun p => p.2.gps_fix) 0 }

/-- Per-id upsert chain: the optional entry for id `a` after each update
addressed to it, `none` turning into a fresh default record first. -/
def applyListOpt (a : String) : List (ℚ × StateData) → Option DroneState → Option DroneState
  | [], o => o
  | (t, sd) :: rest, o =>
      applyListOpt a rest (some (updateDroneState t sd (o.getD (freshState a t))))

/-- The `command_data` dict handled by `_execute_matlab_command` (source lines
876 to 896): `.get` reads modelled as `Option` fields. -/
structure CommandData where
  type : Option String := none
  file : Option String := none
  distance : Option ℚ := none
deriving DecidableEq, Repr

/-- One interaction with the MATLAB engine: `call_function` with an optional
single argument, or `evaluate` of the safety-distance assignment
`simulator.safety_distance = d` (source line 893, the formatted string carried
as its numeric payload). -/
inductive MatlabCall where
  | callFn (fname : String) (arg : Option String)
  | evalSafetyDistance (d : ℚ)
deriving DecidableEq, Repr

/-- Body of `_execute_matlab_command`'s `try` block (source lines 882 to 893):
dispatch on `command_data.get('type')`; `fail` says whether the underlying
MATLAB engine call raises (re-raised by `MATLABBridge.call_function` and
`evaluate`). A `type` outside the four handled literals falls through the
`if`/`elif` chain and does nothing. -/
def executeMatlabCommandBody (fail : Bool) (cmd : CommandData) : Except String (List MatlabCall) :=
  match cmd.type with
  | some "start_simulation" =>
      if fail then .error "matlab call failed" else .ok [.callFn "start_simulation" none]
  | some "stop_simulation" =>
      if fail then .error "matlab call failed" else .ok [.callFn "stop_simulation" none]
  | some "load_mission" =>
      if fail then .error "matlab call failed" else .ok [.callFn "load_qgc_file" cmd.file]
  | some "set_safety_distance" =>
      if fail then .error "matlab call failed"
      else .ok [.evalSafetyDistance (cmd.distance.getD 5)]
  | _ => .ok []

/-- `_execute_matlab_command` (source lines 876 to 896): returns immediately
when the MATLAB bridge is disconnected; otherwise runs the body under
`try`/`except`, any raised fault being converted into one `logger.error`
entry — the method itself never propagates an exception. Result: the MATLAB
calls performed and the error log entries emitted. -/
def executeMatlabCommand (connected fail : Bool) (cmd : CommandData) :
    List MatlabCall × List String :=
  if connected then
    match executeMatlabCommandBody fail cmd with
    | .ok calls => (calls, [])
    | .error e => ([], ["MATLAB命令執行錯誤: " ++ e])
  else ([], [])

/-- The four `command_data['type']` literals the `if`/`elif` chain of
`_execute_matlab_command` handles. -/
def isKnownCommandType (o : Option String) : Bool :=
  match o with
  | some "start_simulation" => true
  | some "stop_simulation" => true
  | some "load_mission" => true
  | some "set_safety_distance" => true
  | _ => false

/-- One element of `self.data_queue` as built by the producers (source lines
824, 842, 857, 868, 912, 928) and consumed by `_process_data_item` (source
lines 636 to 645).
* `droneState none` models a `drone_state` item whose `data` dict lacks the
  `drone_id` key, on which `_update_drone_state` raises `KeyError` at line 649
  before reading anything else.
* `missionWaypoint` models a `mission_waypoint` item: its handler
  `self._update_mission_waypoints` (line 643) is not defined anywhere in the
  class, so processing it always raises `AttributeError`; the payload is
  therefore never read and is not carried here.
* `unknownType` models an item whose `type` is none of the three handled
  strings: `_process_data_item` falls through and does nothing. -/
inductive DataItem where
  | droneState (sd : Option StateData)
  | missionWaypoint
  | matlabCommand (cmd : CommandData)
  | unknownType
deriving DecidableEq, Repr

/-- Immediate outcome of `queue.Queue.put(item)` with the default
`block=True, timeout=None` (the only form this file uses): the item is
appended when a slot is free, otherwise the producer blocks — no value is
returned to signal failure and nothing is dropped. -/
inductive PutOutcome (α : Type) where
  | accepted (q : List α)
  | blocked
deriving DecidableEq, Repr

/-- Bounded put of `queue.Queue(maxsize=cap)`. -/
def queuePut {α : Type} (cap : Nat) (q : List α) (x : α) : PutOutcome α :=
  if q.length < cap then .accepted (q ++ [x]) else .blocked

/-- `self.data_queue.put(...)` on the ingestion queue built at source line 529
with `maxsize=1000`. -/
def dataQueuePut (q : List DataItem) (x : DataItem) : PutOutcome DataItem :=
  queuePut 1000 q x

/-- `_process_data_item` (source lines 636 to 645) as a fallible state
transformer over the drone-state store: `Except.error` is a raised exception
escaping the method. `matlab_command` items never raise (the dispatcher
catches internally), and their MATLAB side effects are not tracked here. -/
def processDataItem (now : ℚ) (st : Store) : DataItem → Except String Store
  | .droneState none => .error "KeyError: drone_id"
  | .droneState (some sd) => .ok (applyStoreUpdate now sd st)
  | .missionWaypoint => .error "AttributeError: _update_mission_waypoints"
  | .matlabCommand _ => .ok st
  | .unknownType => .ok st

/-- Does `_process_data_item` raise on this item?  Independent of the store:
exactly the malformed `drone_state` items and every `mission_waypoint` item. -/
def itemFaults : DataItem → Bool
  | .droneState none => true
  | .missionWaypoint => true
  | _ => false

/-- `_process_data_queue` (source lines 622 to 634). The `while` loop:
`while not empty and processed_count < 10`, pop the head with `get_nowait`,
process it; only a successful `_process_data_item` reaches the
`processed_count += 1` line — a raised exception is caught, logged, and the
loop continues with the count unchanged. Returns (removed items in removal
order, items left in the queue, final store). -/
def processDataQueue (now : ℚ) : Store → List DataItem → Nat →
    List DataItem × List DataItem × Store
  | st, [], _ => ([], [], st)
  | st, x :: xs, count =>
    if count < 10 then
      match processDataItem now st x with
      | .ok st' =>
          let r := processDataQueue now st' xs (count + 1)
          (x :: r.1, r.2.1, r.2.2)
      | .error _ =>
          let r := processDataQueue now st xs count
          (x :: r.1, r.2.1, r.2.2)
    else ([], x :: xs, st)

/-- What one pass of `_main_loop`'s `try` block (source lines 600 to 616)
does: either all five processing steps return, or some step raises an
unexpected internal fault carrying a message. -/
inductive TickOutcome where
  | ok
  | fault (msg : String)
deriving DecidableEq, Repr

def tickBody : TickOutcome → Except String Unit
  | .ok => .ok ()
  | .fault m => .error m

/-- The `try`/`except` wrapping of the tick (source lines 618 to 620): a
raised fault is logged and followed by `asyncio.sleep(1.0)`; the exception
never escapes the loop body. -/
def runTickCaught (o : TickOutcome) : Except String Unit :=
  match tickBody o with
  | .ok u => .ok u
  | .error _ => .ok ()

/-- How a run of `_main_loop` can end. -/
inductive LoopExit where
  | stopped
  | crashed (msg : String)
deriving DecidableEq, Repr

/-- `_main_loop` (source lines 595 to 620) over a finite trace: each entry
gives the value of `self.running` read at the top of the `while` and the
outcome of the tick body were it run. A `false` flag exits with `stopped`; an
uncaught exception would exit with `crashed`; a trace exhausted mid-run yields
`none`. Returns (number of iterations run, how the loop ended). -/
def mainLoopRun : List (Bool × TickOutcome) → Nat × Option LoopExit
  | [] => (0, none)
  | (flag, o) :: rest =>
    if flag then
      match runTickCaught o with
      | .ok _ =>
          let r := mainLoopRun rest
          (r.1 + 1, r.2)
      | .error m => (1, some (.crashed m))
    else (0, some .stopped)

def leadingTrue : List Bool → Nat
  | [] => 0
  | b :: r => if b then leadingTrue r + 1 else 0

/-- `self.running` and `stop()` (source line 579): the stop request clears
the running flag, the loop's only exit test. -/
structure BridgeFlags where
  running : Bool
deriving DecidableEq, Repr

def stopBridge (b : BridgeFlags) : BridgeFlags := { b with running := false }

/-- `MissionWaypoint` dataclass (source lines 71 to 83). -/
structure MissionWaypoint where
  sequence : Int
  lat : ℚ
  lon : ℚ
  alt : ℚ
  command : Int := 16
  param1 : ℚ := 0
  param2 : ℚ := 0
  param3 : ℚ := 0
  param4 : ℚ := 0
  autocontinue : Bool := true
deriving DecidableEq, Repr

/-- The `self.mission_waypoints` dict: drone id to its current mission. -/
abbrev Missions := String → Option (List MissionWaypoint)

def emptyMissions : Missions := fun _ => none

/-- The registry write `self.mission_waypoints[drone_id] = waypoints`
(source line 925): plain dict assignment, wholesale replacement. -/
def setMission (id : String) (wps : List MissionWaypoint) (m : Missions) : Missions :=
  fun k => if k = id then some wps else m k

/-- Reading the stored mission back: dict lookup on `mission_waypoints`. -/
def getMission (id : String) (m : Missions) : Option (List MissionWaypoint) := m id

def wpSeq0 : MissionWaypoint := { sequence := 0, lat := 0, lon := 0, alt := 0 }

def wpSeq1 : MissionWaypoint := { sequence := 1, lat := 0, lon := 0, alt := 0 }

/-- Python truthiness of the optional list arguments of `add_drone_state`:
`None` and the empty list are falsy, a non-empty list is truthy. -/
def listTruthy (o : Option (List ℚ)) : Bool :=
  match o with
  | none => false
  | some l => !l.isEmpty

/-- The `state_data` dict built by the public `add_drone_state` (source lines
899 to 911): always carries `drone_id` and `position`; `velocity` and
`attitude` are added only under `if velocity:` and `if attitude:`. -/
def buildAddDroneStateMsg (drone_id : String) (position : List ℚ)
    (velocity attitude : Option (List ℚ)) : StateData :=
  { drone_id := drone_id
    position := some position
    velocity := if listTruthy velocity then velocity else none
    attitude := if listTruthy attitude then attitude else none }

/-- The enqueue performed by `add_drone_state` (source lines 912 to 915). -/
def addDroneStateEnqueue (q : List DataItem) (id : String) (pos : List ℚ)
    (v a : Option (List ℚ)) : PutOutcome DataItem :=
  dataQueuePut q (DataItem.droneState (some (buildAddDroneStateMsg id pos v a)))

/-- Python's `s.split('_')` on the character list: every underscore separates,
adjacent underscores yield empty segments, no underscore yields the whole
string as the only segment. -/
def splitOnUnderscore (l : List Char) : List (List Char) :=
  match l with
  | [] => [[]]
  | c :: rest =>
    let r := splitOnUnderscore rest
    if c = '_' then [] :: r
    else
      match r with
      | [] => [[c]]
      | h :: t => (c :: h) :: t

def digitVal (c : Char) : Option Nat :=
  if c.isDigit then some (c.toNat - 48) else none

def parseNatChars (l : List Char) : Option Nat :=
  if l.isEmpty then none
  else l.foldl (fun acc c => acc.bind fun n => (digitVal c).map fun d => 10 * n + d) (some 0)

/-- CPython's `int(s)` on plain decimal forms: optional leading minus then
decimal digits, anything else (empty string, letters, stray symbols) raises
`ValueError`, modelled as `none`. (Exotic accepted forms — surrounding
whitespace, a leading plus, digit-group underscores — are not needed by any
input considered here.) -/
def parseIntChars (l : List Char) : Option Int :=
  match l with
  | '-' :: rest => (parseNatChars rest).map fun n => -(n : Int)
  | _ => (parseNatChars l).map fun n => (n : Int)

/-- `int(drone_id.split('_')[-1]) if '_' in drone_id else 1` (source line
921): `none` is the `ValueError` raised by `int` on a non-numeric final
segment. -/
def targetSystemOf (id : String) : Option Int :=
  let cs := id.data
  if cs.contains '_' then parseIntChars ((splitOnUnderscore cs).getLastD []) else some 1

/-- `send_mission_to_drone` (source lines 917 to 943). With MAVLink available
and connected it first computes the target system from the drone id — `int`
raising `ValueError` there escapes the method before anything is stored
(`send_waypoint_mission` itself catches its own exceptions and only returns a
bool, so a wire-level failure does not raise). Then the mission is written to
the `mission_waypoints` dict and a `mission_waypoint` item is `put` on the
data queue (blocking put, captured by the `PutOutcome`). -/
def sendMissionToDrone (mavAvailable mavConnected : Bool) (id : String)
    (wps : List MissionWaypoint) (reg : Missions) (q : List DataItem) :
    Except String (Missions × PutOutcome DataItem) :=
  if mavAvailable && mavConnected then
    match targetSystemOf id with
    | none => .error "ValueError: invalid literal for int"
    | some _ => .ok (setMission id wps reg, dataQueuePut q DataItem.missionWaypoint)
  else .ok (setMission id wps reg, dataQueuePut q DataItem.missionWaypoint)

/-- Reference-semantics view of `self.drone_states` needed for the snapshot
claim: the dict maps a drone id to the address of its `DroneState` object,
addresses indexing a heap list; Python mutation of a shared object is a
`set` at its address. -/
structure HeapBridge where
  objs : List DroneState
  dict : List (String × Nat)
deriving DecidableEq, Repr

def lookupAddr (id : String) (d : List (String × Nat)) : Option Nat :=
  (d.find? fun p => p.1 == id).map Prod.snd

/-- `_update_drone_state` under reference semantics (source lines 647 to
672): an unseen id allocates a fresh object and binds the id to its address;
a known id mutates the existing object in place — the same per-object field
merge `updateDroneState` in both cases. -/
def updateDroneStateRef (now : ℚ) (sd : StateData) (b : HeapBridge) : HeapBridge :=
  match lookupAddr sd.drone_id b.dict with
  | some addr =>
      { b with objs := (b.objs.set addr
          (updateDroneState now sd (b.objs.getD addr (freshState sd.drone_id now)))) }
  | none =>
      { objs := b.objs ++ [updateDroneState now sd (freshState sd.drone_id now)],
        dict := b.dict ++ [(sd.drone_id, b.objs.length)] }

/-- `get_drone_states` (source lines 945 to 947): `self.drone_states.copy()`
is a shallow dict copy — the returned mapping carries the same object
references as the live store. -/
def getDroneStatesShallow (b : HeapBridge) : List (String × Nat) := b.dict

/-- What a holder of the returned mapping observes for an id: the current
content of the referenced object in the (possibly later-mutated) heap. -/
def viewSnapshot (snap : List (String × Nat)) (objs : List DroneState) (id : String) :
    Option DroneState :=
  (lookupAddr id snap).bind fun a => objs[a]?

/-- Well-formedness of the reference store: every address the dict holds
points into the heap. -/
def HeapWF (b : HeapBridge) : Prop := ∀ p ∈ b.dict, p.2 < b.objs.length

def sdPos123 : StateData := { drone_id := "a1", position := some [1, 2, 3] }

def sdPos456 : StateData := { drone_id := "a1", position := some [4, 5, 6] }

/-- A store holding one drone "a1" at position [1,2,3]. -/
def bridgeA : HeapBridge := updateDroneStateRef 1 sdPos123 { objs := [], dict := [] }

lemma findSome?_append_singleton {α : Type} (l : List (Option α)) (o : Option α) (d : α) :
    (((l ++ [o]).findSome? id).getD d) = (l.findSome? id).getD (o.getD d) := by
  induction l with
  | nil => cases o <;> simp [List.findSome?]
  | cons a l ih => cases a <;> simp [List.findSome?, ih]

lemma lwwField_cons {α : Type} (o : Option α) (os : List (Option α)) (d : α) :
    lwwField (o :: os) d = lwwField os (o.getD d) := by
  unfold lwwField
  rw [List.reverse_cons]
  exact findSome?_append_singleton _ _ _

lemma lwwField_nil {α : Type} (d : α) : lwwField ([] : List (Option α)) d = d := rfl

lemma applyList_nil (s : DroneState) : applyList [] s = s := rfl

lemma applyList_cons (p : ℚ × StateData) (us : List (ℚ × StateData)) (s : DroneState) :
    applyList (p :: us) s = applyList us (updateDroneState p.1 p.2 s) := rfl

/-- Per-field characterisation of a sequence of merges on one record: each
field ends at the last written value, the previous value standing when no
update names the field; `drone_id` is never touched. -/
lemma applyList_fields (us : List (ℚ × StateData)) (s : DroneState) :
    (applyList us s).drone_id = s.drone_id ∧
    (applyList us s).timestamp = lwwField (us.map fun p => some p.1) s.timestamp ∧
    (applyList us s).position = lwwField (us.map fun p => p.2.position) s.position ∧
    (applyList us s).velocity = lwwField (us.map fun p => p.2.velocity) s.velocity ∧
    (applyList us s).attitude = lwwField (us.map fun p => p.2.attitude) s.attitude ∧
    (applyList us s).battery_voltage
      = lwwField (us.map fun p => p.2.battery_voltage) s.battery_voltage ∧
    (applyList us s).flight_mode = lwwField (us.map fun p => p.2.flight_mode) s.flight_mode ∧
    (applyList us s).armed = lwwField (us.map fun p => p.2.armed) s.armed ∧
    (applyList us s).gps_fix = lwwField (us.map fun p => p.2.gps_fix) s.gps_fix := by
  induction us generalizing s with
  | nil => simp [applyList_nil, lwwField_nil]
  | cons p rest ih =>
    rcases p with ⟨t, sd⟩
    have h := ih (updateDroneState t sd s)
    simp only [applyList_cons, List.map_cons, lwwField_cons] at *
    simpa [updateDroneState] using h

lemma applyListOpt_some (a : String) (us : List (ℚ × StateData)) (s : DroneState) :
    applyListOpt a us (some s) = some (applyList us s) := by
  induction us generalizing s with
  | nil => rfl
  | cons p rest ih => rcases p with ⟨t, sd⟩; simp [applyListOpt, applyList_cons, ih]

/-- The store after a sequence of interleaved updates, read at id `a`,
depends only on the subsequence addressed to `a`, folded by upsert. -/
lemma applyAllStore_eq_applyListOpt (us : List (ℚ × StateData)) (m : Store) (a : String) :
    applyAllStore us m a = applyListOpt a (updatesFor a us) (m a) := by
  induction us generalizing m with
  | nil => rfl
  | cons p rest ih =>
    rcases p with ⟨t, sd⟩
    by_cases h : sd.drone_id = a
    · have hmem : ((t, sd).2.drone_id == a) = true := by simpa using h
      simp only [applyAllStore, List.foldl_cons, updatesFor, List.filter_cons, hmem]
      rw [show (List.foldl (fun m p => applyStoreUpdate p.1 p.2 m) (applyStoreUpdate t sd m) rest)
            = applyAllStore rest (applyStoreUpdate t sd m) from rfl]
      rw [ih]
      simp only [applyListOpt, updatesFor]
      congr 1
      simp [applyStoreUpdate, h]
    · have hmem : ((t, sd).2.drone_id == a) = false := by simpa using h
      simp only [applyAllStore, List.foldl_cons, updatesFor, List.filter_cons, hmem]
      rw [show (List.foldl (fun m p => applyStoreUpdate p.1 p.2 m) (applyStoreUpdate t sd m) rest)
            = applyAllStore rest (applyStoreUpdate t sd m) from rfl]
      rw [ih]
      simp only [updatesFor]
      congr 1
      simp only [applyStoreUpdate]
      rw [if_neg (fun hk => h hk.symm)]

lemma applyListOpt_none_cons (a : String) (t : ℚ) (sd : StateData)
    (rest : List (ℚ × StateData)) :
    applyListOpt a ((t, sd) :: rest) none
      = some (applyList ((t, sd) :: rest) (freshState a t)) := by
  rw [show applyListOpt a ((t, sd) :: rest) none
        = applyListOpt a rest (some (updateDroneState t sd (freshState a t))) from rfl,
      applyListOpt_some, applyList_cons]

/-- C1: for every sequence of partial StateUpdates interleaved over any
agent ids, the entry the store holds for an agent equals the field-wise
last-write-wins merge, in arrival order, of exactly the updates addressed to
that agent (fields absent from every update stay at their creation defaults,
fields absent from one update keep their prior value); and the concrete
three-update scenario on a fresh agent "a1" ends at position [4,5,6],
velocity [0,0,1], every other merged field at its default, `timestamp` being
the last arrival time. -/
theorem merge_lastWriteWins :
    (∀ (us : List (ℚ × StateData)) (a : String),
      applyAllStore us emptyStore a = lwwSpec a us)
    ∧ applyAllStore
        [(1, { drone_id := "a1", position := some [1, 2, 3] }),
         (2, { drone_id := "a1", velocity := some [0, 0, 1] }),
         (3, { drone_id := "a1", position := some [4, 5, 6] })] emptyStore "a1"
      = some { drone_id := "a1", timestamp := 3, position := [4, 5, 6],
               velocity := [0, 0, 1], attitude := [0, 0, 0], battery_voltage := 0,
               flight_mode := "UNKNOWN", armed := false, gps_fix := 0 } := by
  constructor
  · intro us a
    rw [applyAllStore_eq_applyListOpt]
    show applyListOpt a (updatesFor a us) (emptyStore a) = lwwSpec a us
    unfold lwwSpec
    cases h : updatesFor a us with
    | nil => simp [applyListOpt, emptyStore]
    | cons p rest =>
      rcases p with ⟨t, sd⟩
      show applyListOpt a ((t, sd) :: rest) none = _
      rw [applyListOpt_none_cons]
      simp only [List.isEmpty_cons, Bool.false_eq_true, if_false]
      congr 1
      obtain ⟨h1, h2, h3, h4, h5, h6, h7, h8, h9⟩ :=
        applyList_fields ((t, sd) :: rest) (freshState a t)
      apply DroneState.ext
      · exact h1
      · rw [h2]
        simp only [List.map_cons, lwwField_cons, Option.getD_some, freshState]
      · exact h3
      · exact h4
      · exact h5
      · exact h6
      · exact h7
      · exact h8
      · exact h9
  · decide

lemma updateDroneState_twice (t1 t2 : ℚ) (sd : StateData) (s : DroneState) :
    updateDroneState t2 sd (updateDroneState t1 sd s) = updateDroneState t2 sd s := by
  apply DroneState.ext <;>
    simp [updateDroneState] <;> cases sd <;> rename_i pos vel att bat fm ar gf <;>
    first
      | (cases pos <;> rfl)
      | (cases vel <;> rfl)
      | (cases att <;> rfl)
      | (cases bat <;> rfl)
      | (cases fm <;> rfl)
      | (cases ar <;> rfl)
      | (cases gf <;> rfl)

lemma updateDroneState_fresh_time (t t1 t2 : ℚ) (sd : StateData) (a : String) :
    updateDroneState t sd (freshState a t1) = updateDroneState t sd (freshState a t2) := rfl

/-- C4: merging the same StateUpdate twice in succession (the second arriving
at any later wall-clock reading) leaves the whole store exactly as a single
merge of that update arriving at the second reading would. -/
theorem merge_idempotent :
    ∀ (t1 t2 : ℚ) (sd : StateData) (m : Store),
      applyStoreUpdate t2 sd (applyStoreUpdate t1 sd m) = applyStoreUpdate t2 sd m := by
  intro t1 t2 sd m
  funext k
  show (if k = sd.drone_id
        then some (updateDroneState t2 sd
          (((applyStoreUpdate t1 sd m) sd.drone_id).getD (freshState sd.drone_id t2)))
        else (applyStoreUpdate t1 sd m) k)
      = (if k = sd.drone_id
        then some (updateDroneState t2 sd ((m sd.drone_id).getD (freshState sd.drone_id t2)))
        else m k)
  have hM : (applyStoreUpdate t1 sd m) sd.drone_id
      = some (updateDroneState t1 sd ((m sd.drone_id).getD (freshState sd.drone_id t1))) := by
    simp [applyStoreUpdate]
  by_cases hk : k = sd.drone_id
  · rw [if_pos hk, if_pos hk, hM]
    cases hmk : m sd.drone_id with
    | some s => simp [updateDroneState_twice]
    | none => simp [updateDroneState_twice, updateDroneState_fresh_time t2 t1 t2]
  · rw [if_neg hk, if_neg hk]
    simp [applyStoreUpdate, if_neg hk]

/-- C2 counterexample: on a queue already holding its configured capacity of
1000 events, the producers' `self.data_queue.put(...)` (default blocking form)
blocks instead of returning a failure indicator to the caller — refuting the
claim that a full-queue enqueue never blocks and reports failure. -/
theorem enqueue_full_blocks_cex :
    dataQueuePut (List.replicate 1000 DataItem.missionWaypoint) DataItem.missionWaypoint
      = PutOutcome.blocked := by
  unfold dataQueuePut queuePut
  rw [List.length_replicate, if_neg (lt_irrefl 1000)]

/-- C2 amended: `put` on the 1000-capacity ingestion queue blocks the producer
when the queue is full (no failure indicator is returned and nothing is
dropped), accepts by appending when a slot is free, and the number of buffered
events never exceeds the configured capacity of 1000. -/
theorem enqueue_blocking_capacity :
    ∀ (q : List DataItem) (x : DataItem),
      (1000 ≤ q.length → dataQueuePut q x = PutOutcome.blocked) ∧
      (q.length < 1000 →
        dataQueuePut q x = PutOutcome.accepted (q ++ [x]) ∧ (q ++ [x]).length ≤ 1000) := by
  intro q x
  constructor
  · intro h
    simp [dataQueuePut, queuePut, Nat.not_lt.mpr h]
  · intro h
    refine ⟨by simp [dataQueuePut, queuePut, h], ?_⟩
    simp only [List.length_append, List.length_cons, List.length_nil]
    omega

/-- Closed instance of the amended C2 theorem at a full queue and at an empty
queue. -/
theorem enqueue_blocking_capacity_witness :
    dataQueuePut (List.replicate 1000 DataItem.unknownType) DataItem.unknownType
        = PutOutcome.blocked
      ∧ dataQueuePut [] DataItem.unknownType = PutOutcome.accepted [DataItem.unknownType] :=
  ⟨(enqueue_blocking_capacity (List.replicate 1000 DataItem.unknownType)
      DataItem.unknownType).1 (by rw [List.length_replicate]),
   ((enqueue_blocking_capacity [] DataItem.unknownType).2 (by simp)).1⟩

/-- C7 counterexample: a connected dispatcher given the out-of-set command
kind "emergency_stop" performs no MATLAB call and emits no log entry at all —
the unknown kind is silently dropped, refuting the claim that it is
reported. -/
theorem unknown_command_silent_cex :
    executeMatlabCommand true false { type := some "emergency_stop" } = ([], []) := by
  decide

lemma executeMatlabCommandBody_unknown (f : Bool) (cmd : CommandData)
    (h : isKnownCommandType cmd.type = false) :
    executeMatlabCommandBody f cmd = .ok [] := by
  unfold executeMatlabCommandBody
  split
  · rename_i heq; rw [heq] at h; simp [isKnownCommandType] at h
  · rename_i heq; rw [heq] at h; simp [isKnownCommandType] at h
  · rename_i heq; rw [heq] at h; simp [isKnownCommandType] at h
  · rename_i heq; rw [heq] at h; simp [isKnownCommandType] at h
  · rfl

/-- C7 amended: an inbound command whose kind is outside the handled set
(start_simulation, stop_simulation, load_mission, set_safety_distance) falls
through `_execute_matlab_command`'s `if`/`elif` chain: it is silently ignored
— no MATLAB call, no report — and the method returns normally, never
propagating a fault to the scheduler loop. -/
theorem unknown_command_ignored :
    ∀ (connected fail : Bool) (cmd : CommandData),
      isKnownCommandType cmd.type = false →
      executeMatlabCommand connected fail cmd = ([], []) := by
  intro c f cmd h
  cases c
  · simp [executeMatlabCommand]
  · simp [executeMatlabCommand, executeMatlabCommandBody_unknown f cmd h]

/-- Closed instance of the amended C7 theorem, with the engine call poised to
fail — still no crash and no output. -/
theorem unknown_command_ignored_witness :
    executeMatlabCommand true true { type := some "foo" } = ([], []) :=
  unknown_command_ignored true true { type := some "foo" } (by decide)

lemma processDataQueue_nil (now : ℚ) (st : Store) (count : Nat) :
    processDataQueue now st [] count = ([], [], st) := rfl

lemma processDataQueue_cons_stop (now : ℚ) (st : Store) (x : DataItem)
    (xs : List DataItem) (count : Nat) (h : ¬ count < 10) :
    processDataQueue now st (x :: xs) count = ([], x :: xs, st) := by
  unfold processDataQueue
  rw [if_neg h]

lemma processDataQueue_cons_ok (now : ℚ) (st st' : Store) (x : DataItem)
    (xs : List DataItem) (count : Nat) (hc : count < 10)
    (hpi : processDataItem now st x = .ok st') :
    processDataQueue now st (x :: xs) count =
      (x :: (processDataQueue now st' xs (count + 1)).1,
       (processDataQueue now st' xs (count + 1)).2.1,
       (processDataQueue now st' xs (count + 1)).2.2) := by
  conv_lhs => unfold processDataQueue
  rw [if_pos hc, hpi]

lemma processDataQueue_cons_error (now : ℚ) (st : Store) (x : DataItem)
    (xs : List DataItem) (count : Nat) (e : String) (hc : count < 10)
    (hpi : processDataItem now st x = .error e) :
    processDataQueue now st (x :: xs) count =
      (x :: (processDataQueue now st xs count).1,
       (processDataQueue now st xs count).2.1,
       (processDataQueue now st xs count).2.2) := by
  conv_lhs => unfold processDataQueue
  rw [if_pos hc, hpi]

lemma processDataItem_ok_notFaults (now : ℚ) (st st' : Store) (x : DataItem)
    (h : processDataItem now st x = .ok st') : itemFaults x = false := by
  cases x with
  | droneState sd => cases sd <;> simp_all [processDataItem, itemFaults]
  | missionWaypoint => simp_all [processDataItem]
  | matlabCommand c => simp [itemFaults]
  | unknownType => simp [itemFaults]

lemma processDataItem_error_faults (now : ℚ) (st : Store) (x : DataItem) (e : String)
    (h : processDataItem now st x = .error e) : itemFaults x = true := by
  cases x with
  | droneState sd => cases sd <;> simp_all [processDataItem, itemFaults]
  | missionWaypoint => simp [itemFaults]
  | matlabCommand c => simp_all [processDataItem]
  | unknownType => simp_all [processDataItem]

lemma processDataQueue_spec (now : ℚ) (q : List DataItem) :
    ∀ (st : Store) (count : Nat),
      (processDataQueue now st q count).1 ++ (processDataQueue now st q count).2.1 = q ∧
      ((processDataQueue now st q count).1.countP fun x => !itemFaults x) ≤ 10 - count ∧
      ((∀ x ∈ q, itemFaults x = false) →
        (processDataQueue now st q count).1 = q.take (10 - count) ∧
        (processDataQueue now st q count).2.1 = q.drop (10 - count)) := by
  induction q with
  | nil =>
    intro st count
    refine ⟨rfl, by simp [processDataQueue_nil],
      fun _ => ⟨by simp [processDataQueue_nil], by simp [processDataQueue_nil]⟩⟩
  | cons x xs ih =>
    intro st count
    by_cases hc : count < 10
    · cases hpi : processDataItem now st x with
      | ok st' =>
        have hok := processDataItem_ok_notFaults now st st' x hpi
        obtain ⟨ha, hb, hd⟩ := ih st' (count + 1)
        rw [processDataQueue_cons_ok now st st' x xs count hc hpi]
        refine ⟨by simpa using ha, ?_, ?_⟩
        · simp only [List.countP_cons, hok, Bool.not_false, if_pos]
          omega
        · intro hall
          have hsub : 10 - count = (10 - (count + 1)) + 1 := by omega
          obtain ⟨h1, h2⟩ := hd (fun y hy => hall y (List.mem_cons_of_mem x hy))
          rw [hsub]
          exact ⟨by simp [List.take_succ_cons, h1], by simp [List.drop_succ_cons, h2]⟩
      | error e =>
        have hbad := processDataItem_error_faults now st x e hpi
        obtain ⟨ha, hb, hd⟩ := ih st count
        rw [processDataQueue_cons_error now st x xs count e hc hpi]
        refine ⟨by simpa using ha, ?_, ?_⟩
        · simp only [List.countP_cons, hbad, Bool.not_true, Bool.false_eq_true, if_false]
          omega
        · intro hall
          exact absurd (hall x (List.mem_cons_self x xs)) (by simp [hbad])
    · rw [processDataQueue_cons_stop now st x xs count hc]
      have h0 : 10 - count = 0 := by omega
      exact ⟨by simp, by simp [h0], fun _ => ⟨by simp [h0], by simp [h0]⟩⟩

/-- C5 counterexample: a queue of 11 `mission_waypoint` items (whose handler
`_update_mission_waypoints` does not exist, so each raises and is caught
without incrementing `processed_count`) is drained entirely in a single tick —
11 events removed, more than the batch limit of 10, refuting "removes at most
10 events per tick". -/
theorem drain_batch_cex :
    10 < ((processDataQueue 0 emptyStore
      (List.replicate 11 DataItem.missionWaypoint) 0).1).length := by
  decide

/-- C5 amended: one drain step removes a prefix of the queue (FIFO, the
remainder kept in arrival order), at most 10 of the removed events are
successfully processed, and when no drained event raises during processing the
step removes exactly the first `min 10 (length)` events — faulting events,
however, are removed and logged without counting toward the batch limit, so a
tick can remove more than 10 events when some of them fault. -/
theorem drain_batch_fifo :
    ∀ (now : ℚ) (st : Store) (q : List DataItem),
      (processDataQueue now st q 0).1 ++ (processDataQueue now st q 0).2.1 = q ∧
      ((processDataQueue now st q 0).1.countP fun x => !itemFaults x) ≤ 10 ∧
      ((∀ x ∈ q, itemFaults x = false) →
        (processDataQueue now st q 0).1 = q.take 10 ∧
        (processDataQueue now st q 0).2.1 = q.drop 10) := by
  intro now st q
  simpa using processDataQueue_spec now q st 0

/-- Closed instance of the amended C5 theorem: 12 well-formed events, the
first 10 drained, the last 2 carried over in order. -/
theorem drain_batch_fifo_witness :
    (processDataQueue 0 emptyStore (List.replicate 12 DataItem.unknownType) 0).1
        = List.replicate 10 DataItem.unknownType
      ∧ (processDataQueue 0 emptyStore (List.replicate 12 DataItem.unknownType) 0).2.1
        = List.replicate 2 DataItem.unknownType := by
  have h := (drain_batch_fifo 0 emptyStore (List.replicate 12 DataItem.unknownType)).2.2
    (by decide)
  refine ⟨?_, ?_⟩
  · rw [h.1]; decide
  · rw [h.2]; decide

lemma mainLoopRun_cons_true (o : TickOutcome) (rest : List (Bool × TickOutcome)) :
    mainLoopRun ((true, o) :: rest) = ((mainLoopRun rest).1 + 1, (mainLoopRun rest).2) := by
  have hr : runTickCaught o = .ok () := by cases o <;> rfl
  conv_lhs => unfold mainLoopRun
  rw [if_pos rfl, hr]

lemma mainLoopRun_cons_false (o : TickOutcome) (rest : List (Bool × TickOutcome)) :
    mainLoopRun ((false, o) :: rest) = (0, some .stopped) := by
  conv_lhs => unfold mainLoopRun
  rw [if_neg (by simp)]

/-- C3: over every finite trace of (running flag, tick outcome) pairs, the
main loop never exits through an uncaught fault — faults are swallowed by the
`except` clause and the next iteration runs normally — it executes exactly as
many iterations as there are leading `true` flags regardless of which ticks
fault, it ends in `stopped` exactly when some iteration reads a cleared
running flag, and `stop()` is what clears that flag. -/
theorem mainLoop_survives_faults :
    ∀ (trace : List (Bool × TickOutcome)),
      ((mainLoopRun trace).2 = none ∨ (mainLoopRun trace).2 = some LoopExit.stopped) ∧
      (mainLoopRun trace).1 = leadingTrue (trace.map Prod.fst) ∧
      ((mainLoopRun trace).2 = some LoopExit.stopped ↔ false ∈ trace.map Prod.fst) ∧
      ∀ (b : BridgeFlags), (stopBridge b).running = false := by
  intro trace
  induction trace with
  | nil =>
    exact ⟨Or.inl rfl, rfl, by simp [mainLoopRun, List.map_nil], fun _ => rfl⟩
  | cons p rest ih =>
    rcases p with ⟨flag, o⟩
    obtain ⟨i1, i2, i3, _⟩ := ih
    cases flag
    · refine ⟨Or.inr ?_, ?_, ?_, fun _ => rfl⟩ <;>
        simp [mainLoopRun_cons_false, leadingTrue]
    · refine ⟨?_, ?_, ?_, fun _ => rfl⟩
      · rw [mainLoopRun_cons_true]
        exact i1
      · rw [mainLoopRun_cons_true]
        simp [leadingTrue, i2]
      · rw [mainLoopRun_cons_true]
        simp only [List.map_cons, List.mem_cons]
        rw [i3]
        simp

/-- C6: storing a mission and reading it straight back returns exactly the
waypoint list passed, in order; a second store wholly replaces the first, as
in the concrete scenario — set [seq0, seq1] then [seq0], and only [seq0]
remains. -/
theorem setMission_roundtrip_replaces :
    (∀ (m : Missions) (id : String) (wps : List MissionWaypoint),
      getMission id (setMission id wps m) = some wps)
    ∧ getMission "a1"
        (setMission "a1" [wpSeq0] (setMission "a1" [wpSeq0, wpSeq1] emptyMissions))
      = some [wpSeq0] := by
  refine ⟨fun m id wps => ?_, rfl⟩
  simp [getMission, setMission]

/-- C9: when the velocity (resp. attitude) argument of `add_drone_state` is
falsy — `None` or an empty list — the state update it enqueues omits that
field entirely, so merging the update leaves the agent's previously stored
velocity (resp. attitude) unchanged. -/
theorem addDroneState_falsy_omits :
    ∀ (id : String) (pos : List ℚ) (v a : Option (List ℚ)),
      (listTruthy v = false →
        (buildAddDroneStateMsg id pos v a).velocity = none ∧
        ∀ (t : ℚ) (s : DroneState),
          (updateDroneState t (buildAddDroneStateMsg id pos v a) s).velocity = s.velocity) ∧
      (listTruthy a = false →
        (buildAddDroneStateMsg id pos v a).attitude = none ∧
        ∀ (t : ℚ) (s : DroneState),
          (updateDroneState t (buildAddDroneStateMsg id pos v a) s).attitude = s.attitude) := by
  intro id pos v a
  constructor
  · intro hv
    have h1 : (buildAddDroneStateMsg id pos v a).velocity = none := by
      simp [buildAddDroneStateMsg, hv]
    exact ⟨h1, fun t s => by simp [updateDroneState, h1]⟩
  · intro ha
    have h1 : (buildAddDroneStateMsg id pos v a).attitude = none := by
      simp [buildAddDroneStateMsg, ha]
    exact ⟨h1, fun t s => by simp [updateDroneState, h1]⟩

/-- Closed instance of the C9 theorem: empty-list velocity and `None`
attitude are both dropped from the enqueued update and preserved across a
merge. -/
theorem addDroneState_falsy_omits_witness :
    (buildAddDroneStateMsg "a1" [1, 2, 3] (some []) none).velocity = none
      ∧ (updateDroneState 7 (buildAddDroneStateMsg "a1" [1, 2, 3] (some []) none)
          (freshState "a1" 0)).attitude = (freshState "a1" 0).attitude :=
  ⟨((addDroneState_falsy_omits "a1" [1, 2, 3] (some []) none).1 (by decide)).1,
   ((addDroneState_falsy_omits "a1" [1, 2, 3] (some []) none).2 (by decide)).2
     7 (freshState "a1" 0)⟩

/-- C10 counterexample: with the MAVLink transport available and connected,
`send_mission_to_drone("drone_a", ...)` raises `ValueError` while parsing the
target system from the id — before the registry write at line 925 — so the
mission is never stored, refuting "the registry entry is set regardless of
whether the transport is available or connected". -/
theorem sendMission_parse_crash_cex :
    sendMissionToDrone true true "drone_a" [wpSeq0] emptyMissions []
      = Except.error "ValueError: invalid literal for int" := by
  rfl

/-- C10 amended: whenever `send_mission_to_drone` returns — that is, whenever
the MAVLink transport is unavailable or disconnected, or the id's
target-system suffix parses as an integer — the mission registry entry for
the drone is set to exactly the passed waypoint list, and the wire-level send
outcome never prevents or alters that write; but when the transport is
connected and the id contains an underscore with a non-numeric final segment,
the `int` parse raises before the write and nothing is stored. -/
theorem sendMission_stores_mission :
    ∀ (mavAvailable mavConnected : Bool) (id : String) (wps : List MissionWaypoint)
      (reg : Missions) (q : List DataItem),
      (mavAvailable && mavConnected) = false ∨ (targetSystemOf id).isSome = true →
      sendMissionToDrone mavAvailable mavConnected id wps reg q
          = .ok (setMission id wps reg, dataQueuePut q DataItem.missionWaypoint)
        ∧ getMission id (setMission id wps reg) = some wps := by
  intro av conn id wps reg q h
  refine ⟨?_, by simp [getMission, setMission]⟩
  cases hb : (av && conn) with
  | false => simp [sendMissionToDrone, hb]
  | true =>
    rcases h with h | h
    · rw [hb] at h
      exact absurd h (by simp)
    · obtain ⟨v, hv⟩ := Option.isSome_iff_exists.mp h
      simp [sendMissionToDrone, hb, hv]

/-- Closed instance of the amended C10 theorem: transport down, mission
stored and read back. -/
theorem sendMission_stores_mission_witness :
    sendMissionToDrone false false "a1" [wpSeq0] emptyMissions []
        = .ok (setMission "a1" [wpSeq0] emptyMissions, dataQueuePut [] DataItem.missionWaypoint)
      ∧ getMission "a1" (setMission "a1" [wpSeq0] emptyMissions) = some [wpSeq0] :=
  sendMission_stores_mission false false "a1" [wpSeq0] emptyMissions [] (Or.inl rfl)

/-- C8 counterexample: take the snapshot returned by `get_drone_states`, then
merge a later position update for the same agent — the position read through
the previously returned snapshot changes from [1,2,3] to [4,5,6], because the
shallow dict copy shares the mutated `DroneState` object; this refutes "the
returned snapshot's agent states are unchanged by later merges". -/
theorem snapshot_not_immutable_cex :
    (viewSnapshot (getDroneStatesShallow bridgeA) bridgeA.objs "a1").map DroneState.position
        = some [1, 2, 3]
      ∧ (viewSnapshot (getDroneStatesShallow bridgeA)
            (updateDroneStateRef 2 sdPos456 bridgeA).objs "a1").map DroneState.position
        = some [4, 5, 6] := by
  exact ⟨rfl, rfl⟩

lemma lookupAddr_lt (b : HeapBridge) (hwf : HeapWF b) (id : String) (a : Nat)
    (h : lookupAddr id b.dict = some a) : a < b.objs.length := by
  unfold lookupAddr at h
  cases hf : b.dict.find? (fun p => p.1 == id) with
  | none => rw [hf] at h; cases h
  | some p =>
    rw [hf] at h
    have hpe : p.2 = a := by simpa using h
    exact hpe ▸ hwf p (List.mem_of_find?_eq_some hf)

/-- C8 amended: the value `get_drone_states` returns is only a shallow copy
of the id-to-object mapping — a later merge that creates a new agent leaves
every view through the earlier snapshot unchanged, but a later merge to an
agent the snapshot already holds mutates the shared object, and the snapshot
thereafter shows the merged (new) position, velocity and attitude rather than
the values it held when taken. -/
theorem snapshot_shallow_copy :
    ∀ (b : HeapBridge), HeapWF b → ∀ (now : ℚ) (sd : StateData),
      (lookupAddr sd.drone_id b.dict = none →
        ∀ id, viewSnapshot (getDroneStatesShallow b) (updateDroneStateRef now sd b).objs id
            = viewSnapshot (getDroneStatesShallow b) b.objs id) ∧
      (∀ addr, lookupAddr sd.drone_id b.dict = some addr →
        viewSnapshot (getDroneStatesShallow b) (updateDroneStateRef now sd b).objs sd.drone_id
          = some (updateDroneState now sd (b.objs.getD addr (freshState sd.drone_id now)))) := by
  intro b hwf now sd
  constructor
  · intro hnone id
    have hobjs : (updateDroneStateRef now sd b).objs
        = b.objs ++ [updateDroneState now sd (freshState sd.drone_id now)] := by
      unfold updateDroneStateRef
      rw [hnone]
    rw [hobjs]
    unfold viewSnapshot getDroneStatesShallow
    cases hla : lookupAddr id b.dict with
    | none => rfl
    | some a =>
      have hlt : a < b.objs.length := lookupAddr_lt b hwf id a hla
      simp [List.getElem?_append_left hlt]
  · intro addr haddr
    have hobjs : (updateDroneStateRef now sd b).objs
        = b.objs.set addr
            (updateDroneState now sd (b.objs.getD addr (freshState sd.drone_id now))) := by
      unfold updateDroneStateRef
      rw [haddr]
    have hlt : addr < b.objs.length := lookupAddr_lt b hwf sd.drone_id addr haddr
    rw [hobjs]
    unfold viewSnapshot getDroneStatesShallow
    rw [haddr]
    simp [List.getElem?_set_eq_of_lt _ hlt]

/-- Closed instance of the amended C8 theorem: the merge on the stored agent
is visible through the earlier snapshot. -/
theorem snapshot_shallow_copy_witness :
    viewSnapshot (getDroneStatesShallow bridgeA)
        (updateDroneStateRef 2 sdPos456 bridgeA).objs sdPos456.drone_id
      = some (updateDroneState 2 sdPos456
          (bridgeA.objs.getD 0 (freshState sdPos456.drone_id 2))) :=
  (snapshot_shallow_copy bridgeA (by unfold HeapWF; decide) 2 sdPos456).2 0 rfl
